import Mathlib

/-
Verification of the turn-based strategy engine (player.py, military.py,
terrain.py, ai.py, game.py) against its natural-language specification.
Python ints are modelled as ℤ (arbitrary precision), Python floats as exact
rationals ℚ, and Python's int() conversion as truncation toward zero.
-/

set_option allowUnsafeReducibility true

attribute [semireducible] Rat.mul Rat.add Rat.sub Rat.div Rat.inv

set_option maxRecDepth 4000

namespace HGM

/-- Python's int() conversion applied to an exact rational: truncation
toward zero (floor for nonnegative values, ceiling for negative ones). -/
def pyInt (q : ℚ) : ℤ := if 0 ≤ q then ⌊q⌋ else ⌈q⌉

/-- Science levels, one per branch (player.py, class Science). -/
structure Science where
  agriculture : ℚ := 1
  industry : ℚ := 1
  trade : ℚ := 1
  sailing : ℚ := 1
  military : ℚ := 1
  medicine : ℚ := 1
deriving DecidableEq

/-- Science.get_level: science level by 1-based branch index, 0.0 for an
index outside 1..6 (player.py). -/
def Science.get_level (s : Science) (index : ℤ) : ℚ :=
  if index = 1 then s.agriculture
  else if index = 2 then s.industry
  else if index = 3 then s.trade
  else if index = 4 then s.sailing
  else if index = 5 then s.military
  else if index = 6 then s.medicine
  else 0

/-- Science.set_level: set a science level by 1-based branch index; an index
outside 1..6 changes nothing (player.py). -/
def Science.set_level (s : Science) (index : ℤ) (value : ℚ) : Science :=
  if index = 1 then { s with agriculture := value }
  else if index = 2 then { s with industry := value }
  else if index = 3 then { s with trade := value }
  else if index = 4 then { s with sailing := value }
  else if index = 5 then { s with military := value }
  else if index = 6 then { s with medicine := value }
  else s

/-- Player state (player.py, dataclass Player). Counters are Python ints
(ℤ here); rates and multipliers are Python floats (ℚ here). -/
structure Player where
  id : ℤ
  money : ℤ := 0
  population : ℤ := 0
  navy : ℤ := 0
  sea_army : ℤ := 0
  sea_moved : ℤ := 0
  land_count : ℤ := 0
  tax_rate : ℚ := 10
  morale : ℚ := 1
  trust : ℚ := 1
  peasants : ℤ := 0
  fishers : ℤ := 0
  workers : ℤ := 0
  merchants : ℤ := 0
  soldiers : ℤ := 0
  unemployed : ℤ := 0
  forts : ℤ := 0
  churches : ℤ := 0
  universities : ℤ := 0
  mills : ℤ := 0
  science : Science := {}
deriving DecidableEq

/-- Sum of the population classes of a player; the spec's partition
invariant states that this equals the player's total population. -/
def partition_sum (p : Player) : ℤ :=
  p.peasants + p.fishers + p.workers + p.merchants + p.soldiers + p.unemployed

/-- Player.distribute_population (player.py): split the population into the
fixed 40/20/25/10 percent classes, remainder to unemployed. -/
def Player.distribute_population (p : Player) : Player :=
  if 0 < p.population then
    let peasants := pyInt ((p.population : ℚ) * (4/10))
    let fishers := pyInt ((p.population : ℚ) * (2/10))
    let workers := pyInt ((p.population : ℚ) * (25/100))
    let merchants := pyInt ((p.population : ℚ) * (1/10))
    { p with
      peasants := peasants, fishers := fishers, workers := workers,
      merchants := merchants,
      unemployed := p.population - (peasants + fishers + workers + merchants) }
  else p

/-- PlayerManager.calculate_morale (player.py): multiplicative chain of tax,
unemployment and trust factors, additive debt penalty, clamped to [0,1]. -/
def calculate_morale (p : Player) : Player :=
  let tax_penalty := p.tax_rate / 100 * 2
  let unemployment_rate := (p.unemployed : ℚ) / ((max p.population 1 : ℤ) : ℚ)
  let unemployment_penalty := unemployment_rate
  let trust_bonus := p.trust / 2
  let debt_penalty := ((min 0 p.money : ℤ) : ℚ) / (10 * ((max p.population 1 : ℤ) : ℚ))
  { p with morale := max 0 (min 1
      (1 * (1 - tax_penalty) * (1 - unemployment_penalty) * (1 + trust_bonus)
        + debt_penalty)) }

/-- PlayerManager.calculate_income (player.py): class incomes, maintenance
costs and treasury interest, each term truncated individually. -/
def calculate_income (p : Player) : ℤ :=
  let income : ℤ := 0
  let income := income + pyInt ((p.peasants : ℚ) * (p.tax_rate / 100) * p.morale * p.science.agriculture * 4)
  let income := income + pyInt ((p.fishers : ℚ) * (p.tax_rate / 100) * p.morale * p.science.sailing * 4)
  let income := income + pyInt ((p.workers : ℚ) * (p.tax_rate / 100) * p.morale * p.science.industry * 8)
  let income := income + pyInt ((p.merchants : ℚ) * (p.tax_rate / 100) * p.morale * p.science.trade * 16)
  let income := income - pyInt ((p.mills : ℚ) * p.science.industry * 20)
  let income := income - pyInt ((p.forts : ℚ) * 30)
  let income := income - pyInt ((p.churches : ℚ) * 3)
  let income := income - pyInt ((p.universities : ℚ) * 25)
  let income := income - pyInt ((p.navy : ℚ) * 20)
  let income := income - pyInt ((p.soldiers : ℚ) * 30)
  let income :=
    if 0 < p.money then income + pyInt ((p.money : ℚ) * (4/100))
    else income - pyInt (|(p.money : ℚ)| * (12/100))
  income

/-- PlayerManager.spend_on_science (player.py): spend money on a science
branch; reject nonpositive or unaffordable amounts, clamp the spend to the
cubic limit, cap progress at 0.3, mutate only when progress is positive.
Returns the updated player and the progress made. -/
def spend_on_science (p : Player) (branch : ℤ) (amount : ℤ) : Player × ℚ :=
  if amount ≤ 0 ∨ p.money < amount then (p, 0)
  else
    let current_level := p.science.get_level branch
    let limit := pyInt (current_level ^ 3 * 1000)
    let amount := min amount limit
    let uni_factor := 1 + ((p.universities : ℚ) / ((max p.population 1 : ℤ) : ℚ) * 50)
    let progress := ((amount : ℚ) / 10000 / current_level ^ 3) * uni_factor
    let progress := min progress (3/10)
    if 0 < progress then
      ({ p with science := p.science.set_level branch (current_level + progress),
                money := p.money - amount }, progress)
    else (p, progress)

/-- One iteration of PlayerManager.update_science (player.py): passive
science progress for a single branch, driven by the fixed numerator 1000,
only once population is at least 100. -/
def update_one_science (p : Player) (i : ℤ) : Player :=
  let current_level := p.science.get_level i
  let uni_factor := 1 + ((p.universities : ℚ) / ((max p.population 1 : ℤ) : ℚ) * 50)
  if 100 ≤ p.population then
    let progress := (1000 / (10000 * current_level ^ 3)) * uni_factor
    let progress := min progress (3/10)
    { p with science := p.science.set_level i (current_level + progress) }
  else p

/-- PlayerManager.update_science (player.py): passive science tick over the
six branches in order. -/
def update_science (p : Player) : Player :=
  [(1 : ℤ), 2, 3, 4, 5, 6].foldl update_one_science p

/-- PlayerManager.calculate_population_growth (player.py): growth rate from
base rate, medicine bonus, food bonus and church bonus, scaled by morale;
truncated, floored at 1 when the rate is positive. -/
def calculate_population_growth (p : Player) (terrain_food_potential : ℚ) : ℤ :=
  if p.population ≤ 0 then 0
  else
    let base_growth_rate : ℚ := 5/1000
    let medicine_bonus := p.science.medicine - 1
    let food_bonus := terrain_food_potential * p.science.agriculture * (1/100)
    let church_bonus := min ((p.churches : ℚ) * (2/100)) (1/10)
    let morale_factor := p.morale
    let growth_rate := (base_growth_rate + medicine_bonus + food_bonus + church_bonus) * morale_factor
    let growth := pyInt ((p.population : ℚ) * growth_rate)
    if 0 < growth_rate then max 1 growth else 0

/-- PlayerManager.next_player scan loop (player.py): advance cyclically
from the current id (1..9, wrapping 9 to 1) and return the first player
found with a positive land count, or none upon wrapping back to the start
id. Fuel bounds the iteration count; 9 steps always reach the start id
again when the start id lies in 1..9. -/
def nextPlayerAux (players : ℤ → Option Player) (start_id : ℤ) : ℕ → ℤ → Option Player
  | 0, _ => none
  | fuel + 1, cur =>
    let next_id := if 9 < cur + 1 then 1 else cur + 1
    if next_id = start_id then none
    else
      match players next_id with
      | some p => if 0 < p.land_count then some p else nextPlayerAux players start_id fuel next_id
      | none => nextPlayerAux players start_id fuel next_id

/-- PlayerManager.next_player (player.py): the scan starts one past the
current player id. -/
def next_player (players : ℤ → Option Player) (current_player_id : ℤ) : Option Player :=
  nextPlayerAux players current_player_id 9 current_player_id

/-- One terrain definition (terrain.py, dataclass TerrainType). -/
structure TerrainType where
  name : String
  food_potential : ℚ
  production_potential : ℚ
  defense_bonus : ℚ
  color : ℤ
deriving DecidableEq

/-- The implicit sea entry always present at index 0 (terrain.py). -/
def seaTerrain : TerrainType :=
  { name := "sea", food_potential := 0, production_potential := 0,
    defense_bonus := 0, color := 1 }

/-- The built-in default terrain catalog (terrain.py): sea plus the nine
fallback land terrain types, in load order. -/
def terrain_types : List TerrainType :=
  [ seaTerrain,
    { name := "plains", food_potential := 1, production_potential := 1,
      defense_bonus := 1/10, color := 2 },
    { name := "forest", food_potential := 8/10, production_potential := 12/10,
      defense_bonus := 2/10, color := 6 },
    { name := "hills", food_potential := 6/10, production_potential := 15/10,
      defense_bonus := 3/10, color := 8 },
    { name := "mountains", food_potential := 4/10, production_potential := 2,
      defense_bonus := 4/10, color := 7 },
    { name := "desert", food_potential := 2/10, production_potential := 5/10,
      defense_bonus := 1/10, color := 14 },
    { name := "swamp", food_potential := 5/10, production_potential := 7/10,
      defense_bonus := 2/10, color := 5 },
    { name := "tundra", food_potential := 3/10, production_potential := 8/10,
      defense_bonus := 1/10, color := 15 },
    { name := "grassland", food_potential := 12/10, production_potential := 9/10,
      defense_bonus := 1/10, color := 10 },
    { name := "jungle", food_potential := 7/10, production_potential := 11/10,
      defense_bonus := 3/10, color := 4 } ]

/-- TerrainManager.get_terrain (terrain.py): in-range index lookup, the sea
entry for any out-of-range index. -/
def get_terrain (index : ℤ) : TerrainType :=
  if 0 ≤ index ∧ index < (terrain_types.length : ℤ) then
    terrain_types.getD index.toNat seaTerrain
  else terrain_types.getD 0 seaTerrain

/-- TerrainManager.get_defense_bonus (terrain.py). -/
def get_defense_bonus (index : ℤ) : ℚ := (get_terrain index).defense_bonus

/-- TerrainManager.get_food_potential (terrain.py). -/
def get_food_potential (index : ℤ) : ℚ := (get_terrain index).food_potential

/-- TerrainManager.get_production_potential (terrain.py). -/
def get_production_potential (index : ℤ) : ℚ := (get_terrain index).production_potential

/-- One layer of the world map, indexed as layer y x like the Python
lists-of-lists map[y][x]. -/
abbrev Grid := ℤ → ℤ → ℤ

/-- Point update of a map layer at row y, column x. -/
def gset (m : Grid) (y x v : ℤ) : Grid :=
  fun j i => if j = y ∧ i = x then v else m j i

/-- Result of MilitaryManager.move_army: the success flag and the army and
moved layers after the call. -/
structure MoveResult where
  ok : Bool
  army : Grid
  moved : Grid

/-- MilitaryManager.move_army (military.py): bounds check, source strength
check, destination-not-sea check; on success deduct from the source army
cell and add to the destination moved cell. -/
def move_army (amount from_x from_y to_x to_y : ℤ)
    (army moved terrain : Grid) : MoveResult :=
  if ¬(0 ≤ from_x ∧ from_x < 15 ∧ 0 ≤ from_y ∧ from_y < 15 ∧
       0 ≤ to_x ∧ to_x < 15 ∧ 0 ≤ to_y ∧ to_y < 15) then
    ⟨false, army, moved⟩
  else if army from_y from_x < amount then ⟨false, army, moved⟩
  else if terrain to_y to_x = 0 then ⟨false, army, moved⟩
  else
    ⟨true, gset army from_y from_x (army from_y from_x - amount),
      gset moved to_y to_x (moved to_y to_x + amount)⟩

/-- Result of MilitaryManager.embark_army: the success flag, the owner and
the army layer after the call. -/
structure EmbarkResult where
  ok : Bool
  owner : Player
  army : Grid

/-- MilitaryManager.embark_army (military.py): bounds check, source
strength check, destination-is-sea check, naval capacity check; on success
increment the owner's moved-embarked counter and transfer the units
between army cells. -/
def embark_army (amount from_x from_y to_x to_y : ℤ)
    (owner : Player) (army terrain : Grid) : EmbarkResult :=
  if ¬(0 ≤ from_x ∧ from_x < 15 ∧ 0 ≤ from_y ∧ from_y < 15 ∧
       0 ≤ to_x ∧ to_x < 15 ∧ 0 ≤ to_y ∧ to_y < 15) then
    ⟨false, owner, army⟩
  else if army from_y from_x < amount then ⟨false, owner, army⟩
  else if ¬(terrain to_y to_x = 0) then ⟨false, owner, army⟩
  else if owner.navy < owner.sea_moved + owner.sea_army + amount then ⟨false, owner, army⟩
  else
    let owner := { owner with sea_moved := owner.sea_moved + amount }
    let army1 := gset army from_y from_x (army from_y from_x - amount)
    let army2 := gset army1 to_y to_x (army1 to_y to_x + amount)
    ⟨true, owner, army2⟩

/-- Battle outcome record (military.py, dataclass BattleResult; the textual
message field is not modelled). -/
structure BattleResult where
  attacker_losses : ℤ
  defender_losses : ℤ
  territory_captured : Bool
  population_exchange : ℤ
  fort_damage : ℤ
deriving DecidableEq

/-- Attacker strength in MilitaryManager.calculate_battle (military.py);
r1 is the random draw, so the random factor is 0.9 + r1 * 0.2. -/
def attack_strength_calc (attacker : Player) (attack_force : ℤ)
    (is_naval : Bool) (r1 : ℚ) : ℚ :=
  let s := (attack_force : ℚ) * attacker.science.military * (9/10 + r1 * (2/10))
  if is_naval then s * attacker.science.sailing else s

/-- Defender strength in MilitaryManager.calculate_battle (military.py);
r2 is the random draw, so the random factor is 0.9 + r2 * 0.2. On land the
terrain and fort bonuses multiply the defense. -/
def defense_strength_calc (defender : Player) (defend_force : ℤ)
    (terrain_type fort_level : ℤ) (is_naval : Bool) (r2 : ℚ) : ℚ :=
  let s := (defend_force : ℚ) * defender.science.military * (9/10 + r2 * (2/10))
  if is_naval then s * defender.science.sailing
  else s * (1 + get_defense_bonus terrain_type + (fort_level : ℚ) * (3/10))

/-- MilitaryManager.calculate_battle (military.py): the random draws r1, r2
and r3 stand for the three random() calls (attacker factor, defender
factor, fort damage). Returns the battle result and the defender state
after the call (the naval winner branch reduces the defender's navy). -/
def calculate_battle (attacker defender : Player)
    (attack_force defend_force terrain_type fort_level : ℤ)
    (is_naval : Bool) (r1 r2 r3 : ℚ) : BattleResult × Player :=
  let attack_strength := attack_strength_calc attacker attack_force is_naval r1
  let defense_strength :=
    defense_strength_calc defender defend_force terrain_type fort_level is_naval r2
  if defense_strength < attack_strength then
    if is_naval then
      let attacker_losses :=
        pyInt ((attack_force : ℚ) * (1 - (defense_strength / attack_strength) ^ 2 / 3))
      let defender_losses := pyInt ((defend_force : ℚ) * (1 - 1/3))
      (⟨attacker_losses, defender_losses, true, 0, 0⟩,
        { defender with navy := max 0 (defender.navy - defender_losses) })
    else
      let victory_ratio := attack_strength / defense_strength
      let attacker_losses :=
        pyInt ((attack_force : ℚ) * (1 - victory_ratio / (victory_ratio + 1)))
      let defender_losses := defend_force
      let fort_damage :=
        if 0 < fort_level ∧ attack_strength / 4 < defense_strength then
          pyInt ((fort_level : ℚ) / 2 * r3 + 1/2)
        else 0
      let population_exchange :=
        if 0 < defender.population then
          pyInt ((defender.population : ℚ) * get_food_potential terrain_type /
            ((max defender.population 1 : ℤ) : ℚ))
        else 0
      (⟨attacker_losses, defender_losses, true, population_exchange, fort_damage⟩, defender)
  else
    if is_naval then
      (⟨pyInt ((attack_force : ℚ) * (1 - 1/3)),
        pyInt ((defend_force : ℚ) * (1 - (attack_strength / defense_strength) ^ 2 / 3)),
        false, 0, 0⟩, defender)
    else
      (⟨attack_force,
        pyInt ((defend_force : ℚ) * (1 - attack_strength / defense_strength)),
        false, 0, 0⟩, defender)

/-- Result of the army branch of Game._handle_build_command: the player
and the army cell after the command, plus the success flag. -/
structure BuildArmyResult where
  player : Player
  army_cell : ℤ
  ok : Bool
deriving DecidableEq

/-- Army branch of Game._handle_build_command (game.py): ownership and
not-sea terrain guards, gold guard (cost 150 per unit), total available
population guard, then deduction of the recruited unit size in priority
order unemployed, peasants, workers, merchants; the units are added to the
army layer cell. unit_size is the size selected through the interface size
table [1, 2, 5, 10, 20, 50, 100]. -/
def build_army (p : Player) (unit_size : ℤ)
    (owner_cell terrain_cell army_cell : ℤ) : BuildArmyResult :=
  if ¬(owner_cell = p.id) then ⟨p, army_cell, false⟩
  else if (get_terrain terrain_cell).name = "sea" then ⟨p, army_cell, false⟩
  else
    let cost := 150 * unit_size
    if p.money < cost then ⟨p, army_cell, false⟩
    else
      let total_available := p.unemployed + p.peasants + p.workers + p.merchants
      if total_available < unit_size then ⟨p, army_cell, false⟩
      else
        let remaining := unit_size
        let used_u := if 0 < remaining ∧ 0 < p.unemployed then min remaining p.unemployed else 0
        let p1 := { p with unemployed := p.unemployed - used_u }
        let remaining := remaining - used_u
        let used_p := if 0 < remaining ∧ 0 < p1.peasants then min remaining p1.peasants else 0
        let p2 := { p1 with peasants := p1.peasants - used_p }
        let remaining := remaining - used_p
        let used_w := if 0 < remaining ∧ 0 < p2.workers then min remaining p2.workers else 0
        let p3 := { p2 with workers := p2.workers - used_w }
        let remaining := remaining - used_w
        let used_m := if 0 < remaining ∧ 0 < p3.merchants then min remaining p3.merchants else 0
        let p4 := { p3 with merchants := p3.merchants - used_m }
        ⟨{ p4 with money := p4.money - cost }, army_cell + unit_size, true⟩

/-- AI weight profile (ai.py, dataclass AISettings), with its default
values; only min_morale and min_tax drive the tax decision. -/
structure AISettings where
  food_weight : ℚ := 1
  production_weight : ℚ := 1
  hate_weight : ℚ := 1
  diplomacy_weight : ℚ := 1
  friendliness : ℚ := 1/2
  chance : ℚ := 2/10
  trust_weight : ℚ := 1
  remote_weight : ℚ := 1/2
  min_trust : ℚ := 3/10
  min_morale : ℚ := 1/2
  min_tax : ℚ := 1/10
  trade_threshold : ℚ := 6/10
  friend_threshold : ℚ := 4/10
  ally_threshold : ℚ := 2/10
  war_military_spending : ℚ := 4/10
  peace_military_spending : ℚ := 2/10
  building_chance : ℚ := 7/10
  church_priority : ℚ := 2/10
  mill_priority : ℚ := 3/10
  navy_priority : ℚ := 2/10
  university_priority : ℚ := 3/10
deriving DecidableEq

/-- The minimum acceptable morale computed in AI._adjust_tax_rate (ai.py):
the profile's minimum morale scaled down by the unemployment ratio. -/
def morale_floor (p : Player) (settings : AISettings) : ℚ :=
  settings.min_morale * (1 - (p.unemployed : ℚ) / ((max p.population 1 : ℤ) : ℚ))

/-- The tax scan loop of AI._adjust_tax_rate (ai.py): for each candidate
tax value, write tax/100 into the tax-rate field, recompute morale, and
remember the candidate value whenever the resulting morale strictly
exceeds the floor. -/
def adjust_tax_loop (min_morale : ℚ) : List ℕ → Player × ℚ → Player × ℚ
  | [], s => s
  | tax :: rest, (p, best_tax) =>
    let p := calculate_morale { p with tax_rate := (tax : ℚ) / 100 }
    let best_tax := if min_morale < p.morale then (tax : ℚ) / 100 else best_tax
    adjust_tax_loop min_morale rest (p, best_tax)

/-- AI._adjust_tax_rate (ai.py): scan candidates 1..25, starting from the
profile's minimum tax, then floor the best candidate at the profile's
minimum tax and recompute morale. -/
def adjust_tax_rate (p : Player) (settings : AISettings) : Player :=
  let min_morale := morale_floor p settings
  let s := adjust_tax_loop min_morale (List.range' 1 25) (p, settings.min_tax)
  calculate_morale { s.1 with tax_rate := max s.2 settings.min_tax }

/-- The ownership and terrain layers of the world map used by end-of-turn
processing (game.py, self.game_map). -/
structure GameMap where
  owner : Grid
  terrain : Grid

/-- Fold over the fixed 15 by 15 index space in the Python iteration order
(for y in range(15): for x in range(15)). -/
def gridFold {α : Type} (f : ℤ → ℤ → α → α) (init : α) : α :=
  (List.range 15).foldl
    (fun acc y => (List.range 15).foldl (fun acc2 x => f (y : ℤ) (x : ℤ) acc2) acc)
    init

/-- The number of owned neighbours of a cell, as counted by the trade-route
scan in Game._handle_end_turn (game.py). -/
def adjacent_owned_count (m : GameMap) (pid x y : ℤ) : ℤ :=
  [((-1 : ℤ), (0 : ℤ)), (1, 0), (0, -1), (0, 1)].foldl
    (fun acc d =>
      let nx := x + d.1
      let ny := y + d.2
      if 0 ≤ nx ∧ nx < 15 ∧ 0 ≤ ny ∧ ny < 15 ∧ m.owner ny nx = pid then acc + 1
      else acc)
    0

/-- Growth phase of Game._handle_end_turn (game.py): average food potential
over owned territory, population growth, and distribution of the new
population by territory composition, remainder to unemployed. -/
def growth_step (p : Player) (m : GameMap) : Player :=
  let food := gridFold
    (fun y x (acc : ℚ × ℤ) =>
      if m.owner y x = p.id then
        (acc.1 + get_food_potential (m.terrain y x), acc.2 + 1)
      else acc)
    ((0 : ℚ), (0 : ℤ))
  let avg_food_potential := food.1 / ((max food.2 1 : ℤ) : ℚ)
  let growth := calculate_population_growth p avg_food_potential
  let p2 := { p with population := p.population + growth }
  if 0 < growth then
    let c := gridFold
      (fun y x (acc : ℤ × ℤ × ℤ × ℤ) =>
        if m.owner y x = p2.id then
          let terrain_id := m.terrain y x
          let land_tiles := if terrain_id = 0 then acc.1 else acc.1 + 1
          let sea_tiles := if terrain_id = 0 then acc.2.1 + 1 else acc.2.1
          let total_production :=
            if 0 < (get_terrain terrain_id).production_potential then acc.2.2.1 + 1
            else acc.2.2.1
          let trade_routes :=
            if 0 < adjacent_owned_count m p2.id x y then acc.2.2.2 + 1 else acc.2.2.2
          (land_tiles, sea_tiles, total_production, trade_routes)
        else acc)
      ((0 : ℤ), (0 : ℤ), (0 : ℤ), (0 : ℤ))
    let total_tiles := max 1 (c.1 + c.2.1)
    let peasant_ratio := (c.1 : ℚ) / (total_tiles : ℚ) * (4/10)
    let fisher_ratio := (c.2.1 : ℚ) / (total_tiles : ℚ) * (4/10)
    let worker_ratio := ((c.2.2.1 : ℚ) / (total_tiles : ℚ)) * (3/10)
    let merchant_ratio := ((c.2.2.2 : ℚ) / (total_tiles : ℚ)) * (2/10)
    let total_ratio := peasant_ratio + fisher_ratio + worker_ratio + merchant_ratio
    let pr := if 0 < total_ratio then peasant_ratio / total_ratio else peasant_ratio
    let fr := if 0 < total_ratio then fisher_ratio / total_ratio else fisher_ratio
    let wr := if 0 < total_ratio then worker_ratio / total_ratio else worker_ratio
    let mr := if 0 < total_ratio then merchant_ratio / total_ratio else merchant_ratio
    let new_peasants := pyInt ((growth : ℚ) * pr)
    let new_fishers := pyInt ((growth : ℚ) * fr)
    let new_workers := pyInt ((growth : ℚ) * wr)
    let new_merchants := pyInt ((growth : ℚ) * mr)
    let remaining := growth - (new_peasants + new_fishers + new_workers + new_merchants)
    { p2 with
      peasants := p2.peasants + new_peasants,
      fishers := p2.fishers + new_fishers,
      workers := p2.workers + new_workers,
      merchants := p2.merchants + new_merchants,
      unemployed := p2.unemployed + remaining }
  else p2

/-- Income phase of Game._handle_end_turn (game.py): add the computed
income to the treasury. -/
def income_step (p : Player) : Player :=
  { p with money := p.money + calculate_income p }

/-- Land-count phase of Game._handle_end_turn (game.py), for the ending
player: recount owned cells from the map. -/
def land_step (p : Player) (m : GameMap) : Player :=
  { p with land_count :=
      gridFold (fun y x acc => if m.owner y x = p.id then acc + 1 else acc) (0 : ℤ) }

/-- End-of-turn per-player processing of Game._handle_end_turn (game.py),
in the source order: recompute morale, passive science, population growth
and distribution, income to treasury, land recount. -/
def handle_end_turn (p : Player) (m : GameMap) : Player :=
  let p1 := calculate_morale p
  let p2 := update_science p1
  let p3 := growth_step p2 m
  let p4 := income_step p3
  land_step p4 m

/-- End-of-turn per-player processing reordered as the specification
sentence lists it, for comparison with the source order: income is
computed and applied to the treasury before population growth is computed
and distributed. -/
def spec_order_end_turn (p : Player) (m : GameMap) : Player :=
  let p1 := calculate_morale p
  let p2 := update_science p1
  let p3 := income_step p2
  let p4 := growth_step p3 m
  land_step p4 m

/-- A fresh empire with 100 population and 2000 gold, with the population
distributed into classes as at scenario load (used as a concrete input). -/
def partition_example_player : Player :=
  Player.distribute_population { id := 1, money := 2000, population := 100 }

/-- Concrete empire for the income example: 100 peasants, no other
classes, 10 percent tax, morale 1, all sciences 1, empty treasury. -/
def income_example_player : Player :=
  { id := 1, peasants := 100, tax_rate := 10, morale := 1 }

/-- Concrete empire for the tax-scan example: 100 population, all
employed, trust 1, empty treasury. -/
def tax_example_player : Player :=
  { id := 1, population := 100, peasants := 100 }

/-- Concrete empire for the science-funding example: 1000 gold, 100
population, all science levels 1. -/
def science_example_player : Player :=
  { id := 1, money := 1000, population := 100 }

/-- Concrete empire for the end-of-turn ordering example: 10000
population distributed by the fixed class ratios, empty treasury. -/
def end_turn_example_player : Player :=
  { id := 1, population := 10000, peasants := 4000, fishers := 2000,
    workers := 2500, merchants := 1000, unemployed := 500 }

/-- Concrete map for the end-of-turn ordering example: empire 1 owns the
single cell (0, 0); every cell is plains (terrain id 1). -/
def end_turn_example_map : GameMap :=
  { owner := fun y x => if y = 0 ∧ x = 0 then 1 else 0,
    terrain := fun _ _ => 1 }

/-- Truncation toward zero of a nonnegative rational stays below it. -/
lemma pyInt_le_self {q : ℚ} (h : 0 ≤ q) : (pyInt q : ℚ) ≤ q := by
  rw [pyInt, if_pos h]
  exact Int.floor_le q

/-- A branch with a positive science level is one of the six valid branch
indices (an invalid index reads as level 0). -/
lemma branch_of_get_level_pos {s : Science} {b : ℤ} (h : 0 < s.get_level b) :
    b = 1 ∨ b = 2 ∨ b = 3 ∨ b = 4 ∨ b = 5 ∨ b = 6 := by
  by_contra hb
  push_neg at hb
  obtain ⟨h1, h2, h3, h4, h5, h6⟩ := hb
  rw [Science.get_level, if_neg h1, if_neg h2, if_neg h3, if_neg h4, if_neg h5, if_neg h6] at h
  exact lt_irrefl 0 h

/-- Reading back the level just written to a valid science branch. -/
lemma get_level_set_level (s : Science) {b : ℤ} (v : ℚ)
    (hb : b = 1 ∨ b = 2 ∨ b = 3 ∨ b = 4 ∨ b = 5 ∨ b = 6) :
    (s.set_level b v).get_level b = v := by
  rcases hb with rfl | rfl | rfl | rfl | rfl | rfl <;>
    simp [Science.get_level, Science.set_level]

/-- Morale recomputation ignores the previous tax rate and morale: writing
a candidate tax rate over any such fields gives the same updated player as
writing it over the base player. -/
lemma calculate_morale_retax (p : Player) (a b c : ℚ) :
    calculate_morale { ({ p with tax_rate := a, morale := b } : Player) with tax_rate := c } =
      { p with
        tax_rate := c,
        morale := (calculate_morale { p with tax_rate := c }).morale } := rfl

/-- Projection of the morale field out of a tax and morale update. -/
lemma morale_update (p : Player) (a b : ℚ) :
    ({ p with tax_rate := a, morale := b } : Player).morale = b := rfl

/-- The tax scan loop leaves the running best untouched when no candidate
in the remaining list qualifies. -/
lemma adjust_tax_loop_of_none (f : ℚ) (p : Player) :
    ∀ (l : List ℕ) (a b best : ℚ),
      (∀ t ∈ l, ¬ f < (calculate_morale { p with tax_rate := (t : ℚ) / 100 }).morale) →
      (adjust_tax_loop f l ({ p with tax_rate := a, morale := b }, best)).2 = best := by
  intro l
  induction l with
  | nil => intro a b best _; rfl
  | cons t ts ih =>
    intro a b best h
    have ht := h t (List.mem_cons_self t ts)
    rw [adjust_tax_loop, calculate_morale_retax, morale_update, if_neg ht]
    exact ih _ _ best fun u hu => h u (List.mem_cons_of_mem _ hu)

/-- Over a strictly ascending candidate list, the tax scan loop ends with
the greatest qualifying candidate (divided by 100), regardless of the
running best it started from. -/
lemma adjust_tax_loop_of_max (f : ℚ) (p : Player) (t0 : ℕ)
    (hq : f < (calculate_morale { p with tax_rate := (t0 : ℚ) / 100 }).morale) :
    ∀ (l : List ℕ), l.Pairwise (· < ·) → t0 ∈ l →
      (∀ t ∈ l, f < (calculate_morale { p with tax_rate := (t : ℚ) / 100 }).morale → t ≤ t0) →
      ∀ (a b best : ℚ),
        (adjust_tax_loop f l ({ p with tax_rate := a, morale := b }, best)).2 = (t0 : ℚ) / 100 := by
  intro l
  induction l with
  | nil => intro _ h0; cases h0
  | cons t ts ih =>
    intro hpw h0 hmax a b best
    rw [adjust_tax_loop, calculate_morale_retax, morale_update]
    rcases List.mem_cons.mp h0 with rfl | h0ts
    · rw [if_pos hq]
      refine adjust_tax_loop_of_none f p ts _ _ _ fun u hu hqu => ?_
      have hlt : t0 < u := (List.pairwise_cons.mp hpw).1 u hu
      have hle : u ≤ t0 := hmax u (List.mem_cons_of_mem _ hu) hqu
      omega
    · exact ih (List.pairwise_cons.mp hpw).2 h0ts
        (fun u hu hqu => hmax u (List.mem_cons_of_mem _ hu) hqu) _ _ _

/-- C2: the AI tax-setting step scans candidate tax rates 1 to 25 in unit
steps, recomputes morale as-if each candidate were applied (the candidate
divided by 100 is written into the tax-rate field before the morale
recomputation), and keeps the last -- the scan being ascending, the
highest -- candidate whose resulting morale strictly exceeds the floor
(the profile's minimum morale scaled down by the unemployment ratio),
even when the morale curve is non-monotonic; the final tax rate is
floored at the profile's minimum tax. -/
theorem adjust_tax_rate_highest_qualifying (p : Player) (settings : AISettings) (t0 : ℕ)
    (h0 : t0 ∈ List.range' 1 25)
    (hq : morale_floor p settings <
      (calculate_morale { p with tax_rate := (t0 : ℚ) / 100 }).morale)
    (hmax : ∀ t ∈ List.range' 1 25,
      morale_floor p settings <
        (calculate_morale { p with tax_rate := (t : ℚ) / 100 }).morale → t ≤ t0) :
    (adjust_tax_rate p settings).tax_rate = max ((t0 : ℚ) / 100) settings.min_tax := by
  have hpair : (List.range' 1 25).Pairwise (· < ·) := by decide
  have hfinal : (adjust_tax_rate p settings).tax_rate =
      max (adjust_tax_loop (morale_floor p settings) (List.range' 1 25)
        (p, settings.min_tax)).2 settings.min_tax := rfl
  rw [hfinal,
    adjust_tax_loop_of_max (morale_floor p settings) p t0 hq (List.range' 1 25)
      hpair h0 hmax p.tax_rate p.morale settings.min_tax]

/-- C2 witness: for a fully employed empire of 100 with trust 1 and an
empty treasury under the default profile, every candidate qualifies, so
the scan ends at candidate 25 and the final tax rate is max(25/100, min
tax). -/
theorem adjust_tax_rate_highest_qualifying_witness :
    (adjust_tax_rate tax_example_player {}).tax_rate =
      max ((25 : ℚ) / 100) ({} : AISettings).min_tax :=
  adjust_tax_rate_highest_qualifying tax_example_player {} 25
    (by decide) (by decide) (by decide)

/-- C10: for every empire state, the morale written by calculate_morale
lies in the interval [0, 1]. -/
theorem calculate_morale_mem_unit_interval (p : Player) :
    0 ≤ (calculate_morale p).morale ∧ (calculate_morale p).morale ≤ 1 := by
  refine ⟨le_max_left 0 _, max_le ?_ (min_le_left 1 _)⟩
  norm_num

/-- C9: every class-income term, every maintenance term and the treasury
interest term of calculate_income is truncated toward zero individually
before summation, and the concrete example (100 peasants, all other
classes zero, 10 percent tax, morale 1, agriculture 1, no buildings, no
navy, no soldiers, empty treasury) returns exactly 40. -/
theorem calculate_income_per_term_truncation :
    (∀ p : Player, calculate_income p =
        pyInt ((p.peasants : ℚ) * (p.tax_rate / 100) * p.morale * p.science.agriculture * 4)
      + pyInt ((p.fishers : ℚ) * (p.tax_rate / 100) * p.morale * p.science.sailing * 4)
      + pyInt ((p.workers : ℚ) * (p.tax_rate / 100) * p.morale * p.science.industry * 8)
      + pyInt ((p.merchants : ℚ) * (p.tax_rate / 100) * p.morale * p.science.trade * 16)
      - pyInt ((p.mills : ℚ) * p.science.industry * 20)
      - pyInt ((p.forts : ℚ) * 30)
      - pyInt ((p.churches : ℚ) * 3)
      - pyInt ((p.universities : ℚ) * 25)
      - pyInt ((p.navy : ℚ) * 20)
      - pyInt ((p.soldiers : ℚ) * 30)
      + (if 0 < p.money then pyInt ((p.money : ℚ) * (4/100))
         else -pyInt (|(p.money : ℚ)| * (12/100)))) ∧
    calculate_income income_example_player = 40 := by
  constructor
  · intro p
    rw [calculate_income]
    split_ifs <;> ring
  · decide

/-- C4: a science-funding call with a nonpositive amount or one exceeding
the treasury is rejected with no mutation and progress 0; otherwise the
amount actually spent never exceeds level cubed times 1000 for the
branch's current level, and the branch level advances by at most 0.3 in
the single call. -/
theorem spend_on_science_caps (p : Player) (branch amount : ℤ)
    (h : 0 < p.science.get_level branch) :
    ((amount ≤ 0 ∨ p.money < amount) → spend_on_science p branch amount = (p, 0)) ∧
    (((p.money - (spend_on_science p branch amount).1.money : ℤ) : ℚ) ≤
      p.science.get_level branch ^ 3 * 1000) ∧
    (spend_on_science p branch amount).1.science.get_level branch ≤
      p.science.get_level branch + 3/10 := by
  have hb := branch_of_get_level_pos h
  have hlim : (0 : ℚ) ≤ p.science.get_level branch ^ 3 * 1000 := by positivity
  simp only [spend_on_science]
  split_ifs with hrej hpos
  · refine ⟨fun _ => rfl, by simpa using hlim, ?_⟩
    dsimp only
    linarith
  · refine ⟨fun hc => absurd hc hrej, ?_, ?_⟩
    · dsimp only
      have hsub : p.money - (p.money - min amount (pyInt (p.science.get_level branch ^ 3 * 1000))) =
          min amount (pyInt (p.science.get_level branch ^ 3 * 1000)) := by ring
      rw [hsub]
      calc ((min amount (pyInt (p.science.get_level branch ^ 3 * 1000)) : ℤ) : ℚ)
          ≤ ((pyInt (p.science.get_level branch ^ 3 * 1000) : ℤ) : ℚ) := by
            exact_mod_cast min_le_right _ _
        _ ≤ p.science.get_level branch ^ 3 * 1000 := pyInt_le_self hlim
    · dsimp only
      rw [get_level_set_level _ _ hb]
      exact add_le_add_left (min_le_right _ _) _
  · refine ⟨fun hc => absurd hc hrej, by simpa using hlim, ?_⟩
    dsimp only
    linarith

/-- C4 witness: funding branch 1 with 500 gold from a 1000-gold treasury
at level 1 advances the branch by at most 0.3. -/
theorem spend_on_science_caps_witness :
    (spend_on_science science_example_player 1 500).1.science.get_level 1 ≤
      science_example_player.science.get_level 1 + 3/10 :=
  (spend_on_science_caps science_example_player 1 500 (by decide)).2.2

/-- C1: recruiting an army through the build command breaks the population
partition invariant: starting from a freshly distributed population of 100
(where classes sum to the population), a successful recruitment of 10
units removes 10 people from the classes but increments neither the
soldiers counter nor touches the population, so the partition then sums to
90 while the population stays 100. -/
theorem build_army_breaks_partition :
    partition_sum partition_example_player = partition_example_player.population ∧
    (build_army partition_example_player 10 1 1 0).ok = true ∧
    (build_army partition_example_player 10 1 1 0).player.soldiers =
      partition_example_player.soldiers ∧
    partition_sum (build_army partition_example_player 10 1 1 0).player = 90 ∧
    (build_army partition_example_player 10 1 1 0).player.population = 100 := by
  decide

/-- C3 (amended): end-of-turn processing for the ending empire recomputes
morale first, then accrues passive science, then computes and distributes
population growth, then computes income and applies it to the treasury
(the income credited is the income of the post-growth state), and finally
recounts land from the map. -/
theorem handle_end_turn_growth_before_income (p : Player) (m : GameMap) :
    handle_end_turn p m =
      land_step (income_step (growth_step (update_science (calculate_morale p)) m)) m ∧
    (handle_end_turn p m).money =
      (growth_step (update_science (calculate_morale p)) m).money +
        calculate_income (growth_step (update_science (calculate_morale p)) m) :=
  ⟨rfl, rfl⟩

/-- C3 counterexample: on a concrete empire (distributed population of
10000, one owned plains cell) the code order credits 7328 gold while the
spec sentence's order (income applied to the treasury before growth)
would credit 6600, so income is not computed and applied before
population growth. -/
theorem handle_end_turn_income_not_before_growth :
    (handle_end_turn end_turn_example_player end_turn_example_map).money = 7328 ∧
    (spec_order_end_turn end_turn_example_player end_turn_example_map).money = 6600 ∧
    ¬ (handle_end_turn end_turn_example_player end_turn_example_map).money =
        (spec_order_end_turn end_turn_example_player end_turn_example_map).money := by
  refine ⟨by decide, by decide, by decide⟩

/-- C5: in battle resolution, territory is captured exactly on an attacker
win (attack strength strictly above defense strength), for every
combination of forces, sciences, terrain, fort level, naval flag and
random draws; and the deterministic land example (forces 10 and 10, all
sciences 1, plains defense bonus 0.1, no fort, both random factors 1.0,
i.e. draws of one half) ends with attack strength 10 against defense 11:
the defender wins, the attacker loses all 10, the defender loses
truncate(10 times (1 - 10/11)) = 0 and no territory changes hands. -/
theorem calculate_battle_capture_only_on_win :
    (∀ (attacker defender : Player) (attack_force defend_force terrain_type fort_level : ℤ)
      (is_naval : Bool) (r1 r2 r3 : ℚ),
      (calculate_battle attacker defender attack_force defend_force terrain_type fort_level
        is_naval r1 r2 r3).1.territory_captured = true ↔
      defense_strength_calc defender defend_force terrain_type fort_level is_naval r2 <
        attack_strength_calc attacker attack_force is_naval r1) ∧
    (attack_strength_calc { id := 1 } 10 false (1/2) = 10 ∧
     defense_strength_calc { id := 2 } 10 1 0 false (1/2) = 11 ∧
     (calculate_battle { id := 1 } { id := 2 } 10 10 1 0 false (1/2) (1/2) 0).1 =
       ⟨10, 0, false, 0, 0⟩) := by
  constructor
  · intro attacker defender attack_force defend_force terrain_type fort_level is_naval r1 r2 r3
    simp only [calculate_battle]
    split_ifs with hw hn <;> simp [hw]
  · exact ⟨by decide, by decide, by decide⟩

/-- C7: moveArmy succeeds exactly when both coordinates are in bounds, the
source cell holds at least the moved amount and the destination terrain is
not sea; on success it deducts the amount from the source army cell and
adds it to the destination moved (arrived) cell, leaving the destination
army cell alone; on any failed precondition it leaves both layers
untouched. -/
theorem move_army_spec (amount from_x from_y to_x to_y : ℤ)
    (army moved terrain : Grid) :
    move_army amount from_x from_y to_x to_y army moved terrain =
      if (0 ≤ from_x ∧ from_x < 15 ∧ 0 ≤ from_y ∧ from_y < 15 ∧
          0 ≤ to_x ∧ to_x < 15 ∧ 0 ≤ to_y ∧ to_y < 15) ∧
         amount ≤ army from_y from_x ∧ ¬ terrain to_y to_x = 0 then
        ⟨true, gset army from_y from_x (army from_y from_x - amount),
          gset moved to_y to_x (moved to_y to_x + amount)⟩
      else ⟨false, army, moved⟩ := by
  rw [move_army]
  split_ifs with h1 h2 h3 h4 <;> first | rfl | (exfalso; omega)

/-- C6: embarkArmy fails with no mutation whenever the naval capacity is
exceeded (embarked plus moved-embarked plus amount above the navy count);
any failure leaves the owner and the army layer untouched; and under the
remaining preconditions (bounds, enough units at the source, sea at the
destination) it succeeds, incrementing the owner's moved-embarked counter
by exactly the amount and transferring exactly that amount from the
source army cell to the destination army cell. -/
theorem embark_army_spec (amount from_x from_y to_x to_y : ℤ)
    (owner : Player) (army terrain : Grid) :
    (owner.navy < owner.sea_moved + owner.sea_army + amount →
      (embark_army amount from_x from_y to_x to_y owner army terrain).ok = false) ∧
    ((embark_army amount from_x from_y to_x to_y owner army terrain).ok = false →
      (embark_army amount from_x from_y to_x to_y owner army terrain).owner = owner ∧
      (embark_army amount from_x from_y to_x to_y owner army terrain).army = army) ∧
    ((0 ≤ from_x ∧ from_x < 15 ∧ 0 ≤ from_y ∧ from_y < 15 ∧
      0 ≤ to_x ∧ to_x < 15 ∧ 0 ≤ to_y ∧ to_y < 15) ∧
     amount ≤ army from_y from_x ∧ terrain to_y to_x = 0 ∧
     owner.sea_moved + owner.sea_army + amount ≤ owner.navy →
      embark_army amount from_x from_y to_x to_y owner army terrain =
        ⟨true, { owner with sea_moved := owner.sea_moved + amount },
          gset (gset army from_y from_x (army from_y from_x - amount)) to_y to_x
            ((gset army from_y from_x (army from_y from_x - amount)) to_y to_x + amount)⟩) := by
  simp only [embark_army]
  split_ifs with h1 h2 h3 h4 <;>
    refine ⟨fun hc => ?_, fun hf => ?_, fun hs => ?_⟩ <;>
    first | rfl | exact ⟨rfl, rfl⟩ | (exfalso; omega) | simp at hf

/-- Any player returned by the next-player scan loop was read from the
registry at an id different from the scan's start id and has a positive
land count, whatever the fuel. -/
lemma nextPlayerAux_mem (players : ℤ → Option Player) (start_id : ℤ) :
    ∀ (fuel : ℕ) (cur : ℤ) (q : Player),
      nextPlayerAux players start_id fuel cur = some q →
      ∃ i, i ≠ start_id ∧ players i = some q ∧ 0 < q.land_count := by
  intro fuel
  induction fuel with
  | zero => intro cur q hq; simp [nextPlayerAux] at hq
  | succ n ih =>
    intro cur q hq
    rw [nextPlayerAux] at hq
    by_cases hs : (if 9 < cur + 1 then 1 else cur + 1) = start_id
    · rw [if_pos hs] at hq
      cases hq
    · rw [if_neg hs] at hq
      cases hp : players (if 9 < cur + 1 then 1 else cur + 1) with
      | none => rw [hp] at hq; exact ih _ q hq
      | some r =>
        rw [hp] at hq
        dsimp only at hq
        by_cases hl : 0 < r.land_count
        · rw [if_pos hl] at hq
          cases hq
          exact ⟨_, hs, hp, hl⟩
        · rw [if_neg hl] at hq
          exact ih _ q hq

/-- When every id other than the start id holds no eligible player, the
next-player scan loop returns none, whatever the fuel. -/
lemma nextPlayerAux_none (players : ℤ → Option Player) (start_id : ℤ)
    (h : ∀ i, i ≠ start_id → ∀ q, players i = some q → ¬ 0 < q.land_count) :
    ∀ (fuel : ℕ) (cur : ℤ), nextPlayerAux players start_id fuel cur = none := by
  intro fuel
  induction fuel with
  | zero => intro cur; rfl
  | succ n ih =>
    intro cur
    rw [nextPlayerAux]
    by_cases hs : (if 9 < cur + 1 then 1 else cur + 1) = start_id
    · rw [if_pos hs]
    · rw [if_neg hs]
      cases hp : players (if 9 < cur + 1 then 1 else cur + 1) with
      | none => exact ih _
      | some r =>
        dsimp only
        rw [if_neg (h _ hs r hp)]
        exact ih _

/-- C8: advancing to the next eligible empire never re-selects the empire
the scan started from: any returned empire is stored at an id different
from the start id (so, in a well-formed registry, its id differs from the
start id), and when every other id holds no empire with positive land
count the advance returns none (game over), even though the start empire
itself may still be eligible. -/
theorem next_player_never_selects_start (players : ℤ → Option Player)
    (current_player_id : ℤ) :
    (∀ q, next_player players current_player_id = some q →
      ∃ i, i ≠ current_player_id ∧ players i = some q ∧ 0 < q.land_count) ∧
    ((∀ j r, players j = some r → r.id = j) →
      ∀ q, next_player players current_player_id = some q → ¬ q.id = current_player_id) ∧
    ((∀ i, i ≠ current_player_id → ∀ q, players i = some q → ¬ 0 < q.land_count) →
      next_player players current_player_id = none) := by
  refine ⟨fun q hq => nextPlayerAux_mem players current_player_id 9 current_player_id q hq,
    fun hwf q hq hid => ?_, fun h => nextPlayerAux_none players current_player_id h 9 _⟩
  obtain ⟨i, hi, hpi, -⟩ :=
    nextPlayerAux_mem players current_player_id 9 current_player_id q hq
  exact hi (by rw [← hwf i q hpi, hid])

end HGM
